import Mathlib

/-!
Verification development for the app-exposer analysis lifecycle controller.

The Go sources under `incluster/` (volumes.go, services.go, the status
publisher file) are shallowly embedded below: pure Go functions become Lean
functions, Go maps become association lists with first-match lookup, fallible
Go functions return `Except`/`Option`, and the external collaborators (the
Apps service, the Permissions service, the cluster API, the HTTP transport)
are passed in as explicit oracle functions.  Every handler additionally
returns the list of outbound calls it performed, so that statements of the
form "no Permissions call is made" are directly expressible.
-/

namespace AppExposer

/-! ## Association-list maps (the embedding of Go maps)

Go maps are modelled as `List (String × β)` with first-match lookup.  `mapSet`
removes any previous binding for the key, so lookups after a sequence of sets
agree with Go map semantics regardless of insertion order. -/

/-- First-match lookup in an association list; models reading a Go map. -/
def mapLookup {β : Type} (k : String) : List (String × β) → Option β
  | [] => none
  | (k', v) :: rest => if k = k' then some v else mapLookup k rest

/-- Models Go map assignment `m[k] = v`: the new binding shadows any old one. -/
def mapSet {β : Type} (k : String) (v : β) (m : List (String × β)) : List (String × β) :=
  (k, v) :: m.filter (fun kv => !(kv.1 == k))

/-- Models Go `delete(m, k)`. -/
def mapDelete {β : Type} (k : String) (m : List (String × β)) : List (String × β) :=
  m.filter (fun kv => !(kv.1 == k))

theorem mapLookup_mapSet_self {β : Type} (k : String) (v : β) (m : List (String × β)) :
    mapLookup k (mapSet k v m) = some v := by
  simp [mapSet, mapLookup]

theorem mapLookup_filter_ne {β : Type} {k k' : String} (h : k' ≠ k) (m : List (String × β)) :
    mapLookup k' (m.filter (fun kv => !(kv.1 == k))) = mapLookup k' m := by
  induction m with
  | nil => rfl
  | cons kv rest ih =>
    obtain ⟨k₀, v₀⟩ := kv
    by_cases hk : k₀ = k
    · subst hk
      have hne : k' ≠ k₀ := h
      simp [mapLookup, hne, ih]
    · simp only [List.filter_cons]
      have : (!(k₀ == k)) = true := by simp [hk]
      rw [this]
      simp only [mapLookup, ih]

theorem mapLookup_mapSet_ne {β : Type} {k k' : String} (h : k' ≠ k) (v : β)
    (m : List (String × β)) :
    mapLookup k' (mapSet k v m) = mapLookup k' m := by
  simp only [mapSet, mapLookup, if_neg h]
  exact mapLookup_filter_ne h m

theorem mapLookup_mapDelete_ne {β : Type} {k k' : String} (h : k' ≠ k)
    (m : List (String × β)) :
    mapLookup k' (mapDelete k m) = mapLookup k' m :=
  mapLookup_filter_ne h m

/-- Labels on a cluster object (a Go `map[string]string`). -/
abbrev Labels := List (String × String)

/-! ## Go standard-library pieces the sources rely on -/

instance {ε α : Type} [DecidableEq ε] [DecidableEq α] : DecidableEq (Except ε α) := fun a b =>
  match a, b with
  | .ok x, .ok y =>
    if h : x = y then isTrue (by rw [h]) else isFalse (fun hc => by cases hc; exact h rfl)
  | .error e, .error f =>
    if h : e = f then isTrue (by rw [h]) else isFalse (fun hc => by cases hc; exact h rfl)
  | .ok _, .error _ => isFalse (fun hc => by cases hc)
  | .error _, .ok _ => isFalse (fun hc => by cases hc)

/-- Embedding of Go `strings.ToLower` restricted to ASCII (the only inputs
the sources compare against are ASCII type names). -/
def goToLower (s : String) : String :=
  String.mk (s.toList.map Char.toLower)

/-- Embedding of Go `filepath.Base`: trailing slashes are removed, then the
last path element is returned; the empty path yields `.` and an all-slash
path yields `/`. -/
def goFilepathBase (path : String) : String :=
  if path = "" then "."
  else
    let trimmed := ((path.toList.reverse.dropWhile (fun c => c == '/')).reverse)
    if trimmed = [] then "/"
    else String.mk ((trimmed.reverse.takeWhile (fun c => !(c == '/'))).reverse)

theorem string_length_pos {s : String} (h : s ≠ "") : 0 < s.length := by
  cases s with
  | mk data =>
    cases data with
    | nil => exact absurd rfl h
    | cons c cs => simp [String.length]

/-! ## Data model: Job (from `model.Job`, as used by the sources)

Only the fields the embedded functions read are modelled.  `irodsPath` stands
for the value of `stepInput.IRODSPath()`, and `ty` for `stepInput.Type`. -/

structure StepInput where
  ty : String
  irodsPath : String
deriving DecidableEq

structure ContainerSpec where
  uid : Int
  gid : Int
deriving DecidableEq

structure ComponentSpec where
  container : ContainerSpec
deriving DecidableEq

structure StepConfig where
  inputs : List StepInput
deriving DecidableEq

structure JobStep where
  component : ComponentSpec
  config : StepConfig
deriving DecidableEq

structure Job where
  invocationID : String
  submitter : String
  userID : String
  userHome : String
  outputDirectory : String
  steps : List JobStep
deriving DecidableEq

/-- Configuration fields of the `Incluster` receiver used by volumes.go. -/
structure Incluster where
  useCSIDriver : Bool
  irodsZone : String
deriving DecidableEq

/-! ## Constants (package `constants`, not present under the provided sources)

Modelled from the spec: the spec fixes the port names `file-transfers` and
`vice-proxy`; the mount-path and driver-name constants below are opaque fixed
strings whose concrete values no claim depends on. -/

/-- Modelled from the spec: the input mount root `<inputMountRoot>`. -/
def CSIDriverInputVolumeMountPath : String := "/input"

/-- Modelled from the spec: the output mount point of the writable output mapping. -/
def CSIDriverOutputVolumeMountPath : String := "/output"

/-- Modelled from the spec: the local mount path of the CSI volume. -/
def CSIDriverLocalMountPath : String := "/data"

/-- Modelled from the spec: the CSI driver name (opaque; no claim depends on it). -/
def CSIDriverName : String := "irods.csi.cyverse.org"

/-- Modelled from the spec: the storage class name (opaque; no claim depends on it). -/
def CSIDriverStorageClassName : String := "irods-storageclass"

/-- Modelled from the spec: port name of the file-transfers service port. -/
def FileTransfersPortName : String := "file-transfers"

/-- Modelled from the spec: port name of the vice-proxy service port. -/
def VICEProxyPortName : String := "vice-proxy"

/-- Modelled from the spec: numeric service port for file transfers (value not
given by the spec; no claim depends on it). -/
def FileTransfersPort : Int := 60001

/-- Modelled from the spec: numeric service port for the VICE proxy (value not
given by the spec; no claim depends on it). -/
def VICEProxyServicePort : Int := 60000

/-! ## volumes.go -/

/-- Embeds `IRODSFSPathMapping` (volumes.go lines 22-29). -/
structure IRODSFSPathMapping where
  irodsPath : String
  mappingPath : String
  resourceType : String
  readOnly : Bool
  createDir : Bool
  ignoreNotExistError : Bool
deriving DecidableEq

/-- Error outcomes of volume synthesis (volumes.go returns these via
`fmt.Errorf`); `emptySteps` models the runtime index-out-of-range panic of
`job.Steps[0]` when a job has no steps. -/
inductive VolError where
  | unknownInputType (ty : String)
  | inputPathCollision (newIRODSPath mountPath existingIRODSPath : String)
  | emptySteps
deriving DecidableEq

/-- The input-type dispatch of volumes.go lines 58-68: `fileinput` and
`multifileselector` map to `file`, `folderinput` to `dir`, anything else is
unknown. -/
def resourceTypeOf (ty : String) : Option String :=
  if goToLower ty = "fileinput" then some "file"
  else if goToLower ty = "multifileselector" then some "file"
  else if goToLower ty = "folderinput" then some "dir"
  else none

/-- The mount path of an input (volumes.go line 70):
`<inputMountRoot>/<basename(irodsPath)>`. -/
def mountPathOf (irodsPath : String) : String :=
  CSIDriverInputVolumeMountPath ++ "/" ++ goFilepathBase irodsPath

/-- The loop body of `getInputPathMappings` (volumes.go lines 54-90), walking
the flattened step inputs with the accumulated `mappingMap` (mount path →
iRODS path) and the accumulated mapping list. -/
def processInputs : List StepInput → List (String × String) → List IRODSFSPathMapping →
    Except VolError (List IRODSFSPathMapping)
  | [], _, mappings => .ok mappings
  | inp :: rest, mappingMap, mappings =>
    if 0 < inp.irodsPath.length then
      match resourceTypeOf inp.ty with
      | none => .error (.unknownInputType inp.ty)
      | some resourceType =>
        match mapLookup (mountPathOf inp.irodsPath) mappingMap with
        | some existingIRODSPath =>
          .error (.inputPathCollision inp.irodsPath (mountPathOf inp.irodsPath) existingIRODSPath)
        | none =>
          processInputs rest ((mountPathOf inp.irodsPath, inp.irodsPath) :: mappingMap)
            (mappings ++ [{ irodsPath := inp.irodsPath
                          , mappingPath := mountPathOf inp.irodsPath
                          , resourceType := resourceType
                          , readOnly := true
                          , createDir := false
                          , ignoreNotExistError := true }])
    else processInputs rest mappingMap mappings

/-- The inputs of a job in walk order: the nested loops of volumes.go lines
54-55 visit each step's inputs in order. -/
def jobInputs (job : Job) : List StepInput :=
  (job.steps.map (fun s => s.config.inputs)).flatten

/-- Embeds `getInputPathMappings` (volumes.go lines 47-92). -/
def getInputPathMappings (job : Job) : Except VolError (List IRODSFSPathMapping) :=
  processInputs (jobInputs job) [] []

/-- Embeds `getOutputPathMapping` (volumes.go lines 94-104). -/
def getOutputPathMapping (job : Job) : IRODSFSPathMapping :=
  { irodsPath := job.outputDirectory
  , mappingPath := CSIDriverOutputVolumeMountPath
  , resourceType := "dir"
  , readOnly := false
  , createDir := true
  , ignoreNotExistError := true }

/-- Embeds `getHomePathMapping` (volumes.go lines 106-116). -/
def getHomePathMapping (job : Job) : IRODSFSPathMapping :=
  { irodsPath := job.userHome
  , mappingPath := job.userHome
  , resourceType := "dir"
  , readOnly := false
  , createDir := false
  , ignoreNotExistError := false }

/-- Embeds `getSharedPathMapping` (volumes.go lines 118-130). -/
def getSharedPathMapping (i : Incluster) : IRODSFSPathMapping :=
  { irodsPath := "/" ++ i.irodsZone ++ "/home/shared"
  , mappingPath := "/" ++ i.irodsZone ++ "/home/shared"
  , resourceType := "dir"
  , readOnly := false
  , createDir := false
  , ignoreNotExistError := true }

/-- The full data path mapping list assembled by `getPersistentVolumes`
(volumes.go lines 146-166): inputs, then the output mapping, then the home
mapping when `UserHome` is non-empty, then the shared mapping. -/
def dataPathMappings (i : Incluster) (job : Job) (inputMappings : List IRODSFSPathMapping) :
    List IRODSFSPathMapping :=
  let withOutput := inputMappings ++ [getOutputPathMapping job]
  let withHome := if job.userHome ≠ "" then withOutput ++ [getHomePathMapping job] else withOutput
  withHome ++ [getSharedPathMapping i]

/-! ### JSON encoding (Go `encoding/json` on `[]IRODSFSPathMapping`)

Go marshals struct fields in declaration order under their json tags, escaping
the characters below; `<`, `>` and `&` are HTML-escaped by default. -/

def hexDigit (n : Nat) : Char :=
  if n < 10 then Char.ofNat (48 + n) else Char.ofNat (87 + n)

def jsonEscapeChar (c : Char) : String :=
  if c = '"' then "\\\""
  else if c = '\\' then "\\\\"
  else if c = '\n' then "\\n"
  else if c = '\r' then "\\r"
  else if c = '\t' then "\\t"
  else if c = '<' then "\\u003c"
  else if c = '>' then "\\u003e"
  else if c = '&' then "\\u0026"
  else if c.toNat < 32 then
    "\\u00" ++ String.mk [hexDigit (c.toNat / 16), hexDigit (c.toNat % 16)]
  else String.singleton c

def jsonString (s : String) : String :=
  "\"" ++ String.join (s.toList.map jsonEscapeChar) ++ "\""

def jsonBool (b : Bool) : String :=
  if b then "true" else "false"

def jsonEncodeMapping (m : IRODSFSPathMapping) : String :=
  "\x7b" ++ "\"irods_path\":" ++ jsonString m.irodsPath
  ++ ",\"mapping_path\":" ++ jsonString m.mappingPath
  ++ ",\"resource_type\":" ++ jsonString m.resourceType
  ++ ",\"read_only\":" ++ jsonBool m.readOnly
  ++ ",\"create_dir\":" ++ jsonBool m.createDir
  ++ ",\"ignore_not_exist_error\":" ++ jsonBool m.ignoreNotExistError
  ++ "\x7d"

def jsonEncodeMappings (ms : List IRODSFSPathMapping) : String :=
  "[" ++ String.intercalate "," (ms.map jsonEncodeMapping) ++ "]"

/-! ### Persistent volume synthesis -/

/-- Modelled from the spec: `LabelsFromJob` lives outside the provided
sources; section 6 of the spec gives the label schema.  The
`LabelValueString` normalization is not modelled because no claim depends on
label values. -/
def LabelsFromJob (job : Job) : Labels :=
  [ ("app-type", "interactive")
  , ("external-id", job.invocationID)
  , ("user-id", job.userID)
  , ("username", job.submitter) ]

/-- Embeds `getCSIDataVolumeHandle` (volumes.go lines 35-37); the name constant is a
fixed opaque string. -/
def getCSIDataVolumeHandle (job : Job) : String :=
  "csi-data-volume-handle-" ++ job.invocationID

/-- Embeds `getCSIDataVolumeName` (volumes.go lines 39-41). -/
def getCSIDataVolumeName (job : Job) : String :=
  "csi-data-volume-" ++ job.invocationID

/-- Embeds `getCSIDataVolumeClaimName` (volumes.go lines 43-45). -/
def getCSIDataVolumeClaimName (job : Job) : String :=
  "csi-data-volume-claim-" ++ job.invocationID

/-- Embeds `getCSIDataVolumeLabels` (volumes.go lines 132-140). -/
def getCSIDataVolumeLabels (job : Job) : Labels :=
  mapSet "volume-name" (getCSIDataVolumeName job) (LabelsFromJob job)

/-- The fields of the synthesized PersistentVolume that volumes.go sets. -/
structure PersistentVolumeModel where
  name : String
  labels : Labels
  capacity : String
  accessModes : List String
  reclaimPolicy : String
  storageClassName : String
  csiDriver : String
  csiVolumeHandle : String
  volumeAttributes : Labels
deriving DecidableEq

/-- Embeds `getPersistentVolumes` (volumes.go lines 144-220).  The `json.Marshal`
error branch is unreachable (the struct always marshals); indexing
`job.Steps[0]` on an empty step list would panic in Go and is modelled as the
`emptySteps` error. -/
def getPersistentVolumes (i : Incluster) (job : Job) :
    Except VolError (List PersistentVolumeModel) :=
  if i.useCSIDriver then
    match getInputPathMappings job with
    | .error e => .error e
    | .ok inputMappings =>
      match job.steps with
      | [] => .error .emptySteps
      | s0 :: _ =>
        .ok [ { name := getCSIDataVolumeName job
              , labels := getCSIDataVolumeLabels job
              , capacity := "5Gi"
              , accessModes := ["ReadWriteMany"]
              , reclaimPolicy := "Retain"
              , storageClassName := CSIDriverStorageClassName
              , csiDriver := CSIDriverName
              , csiVolumeHandle := getCSIDataVolumeHandle job
              , volumeAttributes :=
                  [ ("client", "irodsfuse")
                  , ("path_mapping_json",
                      jsonEncodeMappings (dataPathMappings i job inputMappings))
                  , ("no_permission_check", "true")
                  , ("clientUser", job.submitter)
                  , ("uid", toString s0.component.container.uid)
                  , ("gid", toString s0.component.container.uid) ] } ]
  else .ok []

/-! ## The status publisher (JSLPublisher)

`postStatus` builds the status document, POSTs it, and inspects the response.
Its observable behaviour after a performed POST is a function of the HTTP
transport outcome, which is passed in as an explicit argument.  Errors are
built with `errors.Wrapf` from github.com/pkg/errors, whose documented
behaviour is that wrapping a nil error yields nil; `wrapf` embeds exactly
that. -/

inductive GoError where
  | base (msg : String)
  | wrap (msg : String) (cause : GoError)
deriving DecidableEq

/-- Embedding of pkg/errors `Wrapf`: returns nil (`none`) when the wrapped
error is nil, per its documentation. -/
def wrapf : Option GoError → String → Option GoError
  | none, _ => none
  | some e, msg => some (.wrap msg e)

structure HTTPResponse where
  statusCode : Int
deriving DecidableEq

/-- The job states the publisher posts (`messaging.JobState`). -/
inductive JobState where
  | running
  | succeeded
  | failed
deriving DecidableEq

/-- Embeds `postStatus` after URL parsing and JSON marshalling (both of which
succeed for the inputs the publisher builds): the transport outcome of
`httpClient.Do` is `doResult`, and the function returns the Go error value of
the original.  Note that in the bad-status branch the source wraps the `err`
variable, which is nil at that point because `Do` succeeded. -/
def postStatus (doResult : Except GoError HTTPResponse) (jobID _msg : String)
    (_jobState : JobState) : Option GoError :=
  match doResult with
  | .error err =>
    wrapf (some err) ("error returned posting status for job " ++ jobID)
  | .ok response =>
    if response.statusCode < 200 || response.statusCode > 399 then
      wrapf none ("error status code " ++ toString response.statusCode
        ++ " returned after posting status for job " ++ jobID)
    else none

namespace JSLPublisher

/-- Embeds `Fail`: posts a `FailedState` update via `postStatus`. -/
def Fail (doResult : Except GoError HTTPResponse) (jobID msg : String) : Option GoError :=
  postStatus doResult jobID msg JobState.failed

/-- Embeds `Success`: posts a `SucceededState` update via `postStatus`. -/
def Success (doResult : Except GoError HTTPResponse) (jobID msg : String) : Option GoError :=
  postStatus doResult jobID msg JobState.succeeded

/-- Embeds `Running`: posts a `RunningState` update via `postStatus`. -/
def Running (doResult : Except GoError HTTPResponse) (jobID msg : String) : Option GoError :=
  postStatus doResult jobID msg JobState.running

end JSLPublisher

/-! ## services.go: the Service synthesizer -/

/-- Kubernetes `intstr.IntOrString`: a target port is either a number or a
name. -/
inductive IntOrString where
  | int (n : Int)
  | str (s : String)
deriving DecidableEq

structure ServicePortModel where
  name : String
  protocol : String
  port : Int
  targetPort : IntOrString
deriving DecidableEq

structure ServiceSpecModel where
  selector : Labels
  ports : List ServicePortModel
deriving DecidableEq

structure ServiceModel where
  name : String
  labels : Labels
  spec : ServiceSpecModel
deriving DecidableEq

/-- Embeds `getService` (services.go lines 17-50): name `vice-<InvocationID>`,
selector on `external-id`, and the two named ports with string target ports
(`intstr.FromString`). -/
def getService (job : Job) : ServiceModel :=
  { name := "vice-" ++ job.invocationID
  , labels := LabelsFromJob job
  , spec :=
    { selector := [("external-id", job.invocationID)]
    , ports :=
        [ { name := FileTransfersPortName
          , protocol := "TCP"
          , port := FileTransfersPort
          , targetPort := .str FileTransfersPortName }
        , { name := VICEProxyPortName
          , protocol := "TCP"
          , port := VICEProxyServicePort
          , targetPort := .str VICEProxyPortName } ] } }

/-! ## services.go: list options and the filterable handlers -/

/-- The outcome of `getListOptions` (services.go lines 88-111): a selector
requiring the `required` label pairs to be present with the given values and
the `absent` label keys to be missing (`selection.DoesNotExist`). -/
structure ListOptions where
  required : Labels
  absent : List String
deriving DecidableEq

/-- Embeds `getListSelector` (services.go lines 75-84): starts from
`app-type=interactive` and copies the custom labels over it (`maps.Copy`). -/
def getListSelector (customLabels : Labels) : Labels :=
  customLabels.foldl (fun acc kv => mapSet kv.1 kv.2 acc) [("app-type", "interactive")]

/-- Embeds `getListOptions` (services.go lines 88-111). -/
def getListOptions (customLabels : Labels) (missingLabels : List String) : ListOptions :=
  { required := getListSelector customLabels, absent := missingLabels }

/-- Whether an object's labels satisfy a selector: every required pair is
present with that value and every absent key is missing. -/
def matchesOptions (opts : ListOptions) (ls : Labels) : Bool :=
  opts.required.all (fun kv => mapLookup kv.1 ls == some kv.2) &&
  opts.absent.all (fun k => (mapLookup k ls).isNone)

/-- A cluster object as the handlers see it: a name and its labels.  The
kind-specific projection fields (image, ports, statuses, rules) are not read
by any claim and are omitted from the embedding. -/
structure K8sObject where
  name : String
  labels : Labels
deriving DecidableEq

/-- Embeds `filterMap` (services.go lines 169-177): converts `url.Values` to a map
keeping only the first value of each key. -/
def filterMap (values : List (String × List String)) : Labels :=
  values.foldl
    (fun q kv => match kv.2 with
      | [] => q
      | v :: _ => mapSet kv.1 v q) []

/-- Embeds `echo.Context.QueryParam`: the first value bound to the key, or the empty
string. -/
def queryParamOf (query : List (String × List String)) (k : String) : String :=
  ((mapLookup k query).bind List.head?).getD ""

/-- The state of the cluster visible to the listing helpers. -/
structure Cluster where
  deployments : List K8sObject
  pods : List K8sObject
  configmaps : List K8sObject
  services : List K8sObject
  ingresses : List K8sObject
deriving DecidableEq

/-- Errors from the Apps service's `GetUserID` (a database query):
`noRows` is `sql.ErrNoRows`. -/
inductive DBError where
  | noRows
  | other
deriving DecidableEq

/-- Oracles for the Apps service. -/
structure Apps where
  getUserID : String → Except DBError String
  getUserIP : String → Option String
  getAnalysisIDByExternalID : String → Option String

/-- The environment a handler runs against: configuration plus the external
collaborators. -/
structure Env where
  userSuffix : String
  apps : Apps
  permIsAllowed : String → String → Except Unit Bool
  cluster : Cluster

/-- An outbound call performed by a handler; handlers return their trace of
calls so that statements about which collaborators were consulted are
expressible. -/
inductive ExtCall where
  | appsGetUserID (user : String)
  | appsGetAnalysisID (externalID : String)
  | appsGetUserIP (userID : String)
  | permQuery (user analysisID : String)
  | clusterList (kind : String) (opts : ListOptions)
deriving DecidableEq

def isPermCall : ExtCall → Bool
  | .permQuery _ _ => true
  | _ => false

/-- The composite listing returned by `doResourceListing` (services.go lines
554-587); each entry stands for the projected info record of the matching
object. -/
structure ResourceInfo where
  deployments : List K8sObject
  pods : List K8sObject
  configmaps : List K8sObject
  services : List K8sObject
  ingresses : List K8sObject
deriving DecidableEq

/-- The shared body of `deploymentList`/`podList`/... (services.go lines
113-167): list the objects matching `getListOptions`. -/
def listMatching (objs : List K8sObject) (customLabels : Labels)
    (missingLabels : List String) : List K8sObject :=
  objs.filter (fun o => matchesOptions (getListOptions customLabels missingLabels) o.labels)

/-- Embeds `doResourceListing` (services.go lines 554-587): the five kind listings
under the same filter, together with the cluster calls performed. -/
def doResourceListing (cl : Cluster) (filter : Labels) : List ExtCall × ResourceInfo :=
  ( [ ExtCall.clusterList "deployments" (getListOptions filter [])
    , ExtCall.clusterList "pods" (getListOptions filter [])
    , ExtCall.clusterList "configmaps" (getListOptions filter [])
    , ExtCall.clusterList "services" (getListOptions filter [])
    , ExtCall.clusterList "ingresses" (getListOptions filter []) ]
  , { deployments := listMatching cl.deployments filter []
    , pods := listMatching cl.pods filter []
    , configmaps := listMatching cl.configmaps filter []
    , services := listMatching cl.services filter []
    , ingresses := listMatching cl.ingresses filter [] } )

/-- The outcome a handler hands to echo. -/
inductive HandlerOut where
  | httpError (status : Nat) (message : String)
  | errOut
  | okResources (listing : ResourceInfo)
  | okList (items : List K8sObject)
deriving DecidableEq

/-- Modelled from the spec: `common.FixUsername` is outside the provided
sources; the spec says the configured `UserSuffix` is appended to usernames
that lack it. -/
def fixUsername (userSuffix username : String) : String :=
  if username.endsWith userSuffix then username else username ++ userSuffix

/-- Reading the `external-id` label the way `deploymentInfo` does: a Go map
read yields the zero value (the empty string) for a missing key. -/
def externalIDOf (o : K8sObject) : String :=
  (mapLookup "external-id" o.labels).getD ""

/-- Embeds `FilterableDeploymentsHandler` (services.go lines 402-414): the query
parameters, `user` included, are turned into a label filter unchanged. -/
def FilterableDeploymentsHandler (env : Env) (query : List (String × List String)) :
    List ExtCall × HandlerOut :=
  ( [ExtCall.clusterList "deployments" (getListOptions (filterMap query) [])]
  , .okList (listMatching env.cluster.deployments (filterMap query) []) )

/-- Embeds `DescribeAnalysisHandler` (services.go lines 609-670): requires `user`,
resolves it (after suffix fixing) via Apps, lists by `subdomain=host`, and
permission-gates only when the deployments listing is non-empty.  The
`IsAllowed` call receives the raw (unsuffixed) `user`, as in the source. -/
def DescribeAnalysisHandler (env : Env) (host : String)
    (query : List (String × List String)) : List ExtCall × HandlerOut :=
  let user := queryParamOf query "user"
  if user = "" then ([], .httpError 400 "user query parameter must be set")
  else
    let fixedUser := fixUsername env.userSuffix user
    let t0 := [ExtCall.appsGetUserID fixedUser]
    match env.apps.getUserID fixedUser with
    | .error .noRows => (t0, .httpError 404 ("user " ++ fixedUser ++ " not found"))
    | .error .other => (t0, .errOut)
    | .ok _ =>
      let listed := doResourceListing env.cluster [("subdomain", host)]
      match listed.2.deployments with
      | [] => (t0 ++ listed.1, .okResources listed.2)
      | d :: _ =>
        let t2 := [ExtCall.appsGetAnalysisID (externalIDOf d)]
        match env.apps.getAnalysisIDByExternalID (externalIDOf d) with
        | none => (t0 ++ listed.1 ++ t2, .errOut)
        | some analysisID =>
          let t3 := [ExtCall.permQuery user analysisID]
          match env.permIsAllowed user analysisID with
          | .error _ => (t0 ++ listed.1 ++ t2 ++ t3, .errOut)
          | .ok false =>
            (t0 ++ listed.1 ++ t2 ++ t3,
              .httpError 403 ("user " ++ user ++ " cannot access analysis " ++ analysisID))
          | .ok true => (t0 ++ listed.1 ++ t2 ++ t3, .okResources listed.2)

/-- Embeds `FilterableResourcesHandler` (services.go lines 674-706): requires
`user`, resolves it to a user id (404 on `sql.ErrNoRows`, 500 on other
errors), strips `user` from the filter, injects `user-id`, and returns the
composite listing.  No Permissions call is made. -/
def FilterableResourcesHandler (env : Env) (query : List (String × List String)) :
    List ExtCall × HandlerOut :=
  let user := queryParamOf query "user"
  if user = "" then ([], .httpError 400 "user query parameter must be set")
  else
    let fixedUser := fixUsername env.userSuffix user
    let t0 := [ExtCall.appsGetUserID fixedUser]
    match env.apps.getUserID fixedUser with
    | .error .noRows => (t0, .httpError 404 ("user " ++ fixedUser ++ " not found"))
    | .error .other => (t0, .httpError 500 "internal error")
    | .ok userID =>
      let filter := mapSet "user-id" userID (mapDelete "user" (filterMap query))
      let listed := doResourceListing env.cluster filter
      (t0 ++ listed.1, .okResources listed.2)

/-! ## services.go: the label reconciler sweep -/

/-- Embeds `populateSubdomain` (services.go lines 737-747). -/
def populateSubdomain (ingressNameOf : String → String → String) (ls : Labels) : Labels :=
  if (mapLookup "subdomain" ls).isSome then ls
  else
    match mapLookup "external-id" ls, mapLookup "user-id" ls with
    | some externalID, some userID => mapSet "subdomain" (ingressNameOf userID externalID) ls
    | _, _ => ls

/-- Errors surfaced by the per-object populate helpers. -/
inductive SweepError where
  | missingExternalID
  | appsError
deriving DecidableEq

/-- Embeds `populateLoginIP` (services.go lines 749-761). -/
def populateLoginIP (apps : Apps) (ls : Labels) : Labels × Option SweepError :=
  if (mapLookup "login-ip" ls).isSome then (ls, none)
  else
    match mapLookup "user-id" ls with
    | none => (ls, none)
    | some userID =>
      match apps.getUserIP userID with
      | none => (ls, some .appsError)
      | some ipAddr => (mapSet "login-ip" ipAddr ls, none)

/-- Embeds `populateAnalysisID` (services.go lines 721-735): a failed Apps lookup is
only logged (the label stays unset and no error is returned); a missing
`external-id` is returned as an error. -/
def populateAnalysisID (apps : Apps) (ls : Labels) : Labels × Option SweepError :=
  if (mapLookup "analysis-id" ls).isSome then (ls, none)
  else
    match mapLookup "external-id" ls with
    | none => (ls, some .missingExternalID)
    | some externalID =>
      match apps.getAnalysisIDByExternalID externalID with
      | none => (ls, none)
      | some analysisID => (mapSet "analysis-id" analysisID ls, none)

/-- Modelled from the spec: `IngressName` lives outside the provided sources;
the spec requires only a deterministic pure derivation from
`(user-id, external-id)`. -/
def IngressName (userID externalID : String) : String :=
  "a" ++ userID ++ "-" ++ externalID

/-- The label transformation one sweep iteration applies to a visited object
(services.go lines 773-788): `populateSubdomain`, then `populateLoginIP`,
then `populateAnalysisID`, each continuing with the labels the previous one
returned (errors are collected, not propagated). -/
def sweepLabels (apps : Apps) (ls : Labels) : Labels :=
  (populateAnalysisID apps (populateLoginIP apps (populateSubdomain IngressName ls)).1).1

/-- Embeds `deploymentList` as the sweep calls it (services.go lines 113-122,
767): the deployments matching the custom labels and missing the
`missingLabels`. -/
def deploymentListModel (cluster : List K8sObject) (customLabels : Labels)
    (missingLabels : List String) : List K8sObject :=
  cluster.filter (fun d => matchesOptions (getListOptions customLabels missingLabels) d.labels)

/-- Embeds `relabelDeployments` (services.go lines 763-796): the sweep lists with an
empty custom filter and `missingLabels = ["subdomain"]`, then updates each
listed object with the populate chain.  The returned list is the sequence of
Update calls issued. -/
def relabelDeployments (apps : Apps) (cluster : List K8sObject) : List K8sObject :=
  (deploymentListModel cluster [] ["subdomain"]).map
    (fun d => { d with labels := sweepLabels apps d.labels })

/-! ## Shared concrete fixtures -/

def sampleApps : Apps :=
  { getUserID := fun _ => .ok "uid-1"
  , getUserIP := fun _ => some "127.0.0.1"
  , getAnalysisIDByExternalID := fun _ => some "analysis-1" }

def emptyCluster : Cluster := ⟨[], [], [], [], []⟩

def envEmpty : Env :=
  { userSuffix := "@iplant"
  , apps := sampleApps
  , permIsAllowed := fun _ _ => .ok true
  , cluster := emptyCluster }

/-! ## Supporting lemmas -/

theorem mapLookup_isSome_cons {k k₀ : String} {v₀ : String} {m : List (String × String)}
    (h : (mapLookup k m).isSome) : (mapLookup k ((k₀, v₀) :: m)).isSome := by
  by_cases hk : k = k₀ <;> simp [mapLookup, hk, h]

/-! ## Claim C2 — status publisher response-code contract -/

/-- C2: the claim states that after the POST is performed, `Fail`, `Success`
and `Running` return an error exactly when the response status code lies
outside `[200, 400)`.  The code is wrong: the bad-status branch returns
`errors.Wrapf(err, ...)` where `err` is the nil error left by the successful
`httpClient.Do`, and pkg/errors `Wrapf` returns nil for a nil argument, so
out-of-range codes are reported as success.  This theorem evaluates the
publisher at such failing inputs and exhibits the `wrapf` nil behaviour. -/
theorem c2_wrapnil_behaviour :
    JSLPublisher.Fail (.ok ⟨500⟩) "job-1" "step failed" = none ∧
    JSLPublisher.Success (.ok ⟨500⟩) "job-1" "done" = none ∧
    JSLPublisher.Running (.ok ⟨404⟩) "job-1" "running" = none ∧
    JSLPublisher.Running (.ok ⟨199⟩) "job-1" "running" = none ∧
    JSLPublisher.Running (.ok ⟨200⟩) "job-1" "running" = none ∧
    (∀ e : GoError, wrapf (some e) "wrapped" = some (.wrap "wrapped" e)) :=
  ⟨rfl, rfl, rfl, rfl, rfl, fun _ => rfl⟩

/-! ## Claim C8 — service shape -/

/-- C8: for every Job, the synthesized Service has exactly the two ports
named `file-transfers` and `vice-proxy`, every `TargetPort` is a named
(string) reference, and the selector is `{external-id: InvocationID}`. -/
theorem c8_service_ports (job : Job) :
    (getService job).spec.ports.map (fun p => p.name) =
      [FileTransfersPortName, VICEProxyPortName] ∧
    FileTransfersPortName = "file-transfers" ∧
    VICEProxyPortName = "vice-proxy" ∧
    ((getService job).spec.ports.all (fun p =>
        match p.targetPort with
        | .str _ => true
        | .int _ => false)) = true ∧
    (getService job).spec.selector = [("external-id", job.invocationID)] :=
  ⟨rfl, rfl, rfl, rfl, rfl⟩

/-! ## Claim C9 — missing user parameter rejected up front -/

/-- C9: when the `user` query parameter is absent or empty, both the
description endpoint and the composite resources endpoint respond 400 with
"user query parameter must be set" and perform no outbound call (the trace is
empty). -/
theorem c9_missing_user (env : Env) (host : String) (query : List (String × List String))
    (hq : queryParamOf query "user" = "") :
    DescribeAnalysisHandler env host query =
      ([], .httpError 400 "user query parameter must be set") ∧
    FilterableResourcesHandler env query =
      ([], .httpError 400 "user query parameter must be set") := by
  constructor
  · simp [DescribeAnalysisHandler, hq]
  · simp [FilterableResourcesHandler, hq]

theorem c9_missing_user_witness :
    DescribeAnalysisHandler envEmpty "host-1" [("filter", ["x"])] =
      ([], .httpError 400 "user query parameter must be set") ∧
    FilterableResourcesHandler envEmpty [("filter", ["x"])] =
      ([], .httpError 400 "user query parameter must be set") :=
  c9_missing_user envEmpty "host-1" [("filter", ["x"])] rfl

/-! ## Claim C10 — empty-path inputs are skipped entirely -/

/-- C10: a step input whose iRODS path is empty is skipped by the volume
walk: processing it is identical to processing the rest of the inputs, so it
contributes no mapping, cannot collide, and its type is never validated. -/
theorem c10_empty_path_skipped (inp : StepInput) (rest : List StepInput)
    (mappingMap : List (String × String)) (mappings : List IRODSFSPathMapping)
    (h : inp.irodsPath = "") :
    processInputs (inp :: rest) mappingMap mappings =
      processInputs rest mappingMap mappings := by
  have hlen : ¬ 0 < inp.irodsPath.length := by rw [h]; decide
  simp only [processInputs, if_neg hlen]

theorem c10_empty_path_skipped_witness :
    processInputs [⟨"bogus-type", ""⟩, ⟨"fileinput", "/a/b.txt"⟩] [] [] =
      processInputs [⟨"fileinput", "/a/b.txt"⟩] [] [] :=
  c10_empty_path_skipped ⟨"bogus-type", ""⟩ [⟨"fileinput", "/a/b.txt"⟩] [] [] rfl

/-! ## Claim C7 — input type determines the resource type -/

/-- C7: for a step input being walked (non-empty path), type `fileinput` or
`multifileselector` yields a mapping with `ResourceType=file`, type
`folderinput` yields `ResourceType=dir`, and any other type fails the
synthesis with the unknown-input-type error (the type check precedes the
collision check, so no freshness assumption is needed for the error case). -/
theorem c7_input_type_mapping (inp : StepInput) (rest : List StepInput)
    (mappingMap : List (String × String)) (mappings : List IRODSFSPathMapping)
    (hne : inp.irodsPath ≠ "") :
    ((goToLower inp.ty = "fileinput" ∨ goToLower inp.ty = "multifileselector") →
      mapLookup (mountPathOf inp.irodsPath) mappingMap = none →
      processInputs (inp :: rest) mappingMap mappings =
        processInputs rest ((mountPathOf inp.irodsPath, inp.irodsPath) :: mappingMap)
          (mappings ++ [{ irodsPath := inp.irodsPath
                        , mappingPath := mountPathOf inp.irodsPath
                        , resourceType := "file"
                        , readOnly := true
                        , createDir := false
                        , ignoreNotExistError := true }])) ∧
    (goToLower inp.ty = "folderinput" →
      mapLookup (mountPathOf inp.irodsPath) mappingMap = none →
      processInputs (inp :: rest) mappingMap mappings =
        processInputs rest ((mountPathOf inp.irodsPath, inp.irodsPath) :: mappingMap)
          (mappings ++ [{ irodsPath := inp.irodsPath
                        , mappingPath := mountPathOf inp.irodsPath
                        , resourceType := "dir"
                        , readOnly := true
                        , createDir := false
                        , ignoreNotExistError := true }])) ∧
    (goToLower inp.ty ≠ "fileinput" → goToLower inp.ty ≠ "multifileselector" →
      goToLower inp.ty ≠ "folderinput" →
      processInputs (inp :: rest) mappingMap mappings =
        .error (.unknownInputType inp.ty)) := by
  have hlen : 0 < inp.irodsPath.length := string_length_pos hne
  refine ⟨?_, ?_, ?_⟩
  · rintro (h | h) hfree
    · simp [processInputs, if_pos hlen, resourceTypeOf, h, hfree]
    · simp [processInputs, if_pos hlen, resourceTypeOf, h, hfree]
  · intro h hfree
    simp [processInputs, if_pos hlen, resourceTypeOf, h, hfree]
  · intro h1 h2 h3
    simp [processInputs, if_pos hlen, resourceTypeOf, h1, h2, h3]

theorem c7_input_type_mapping_witness :
    ((goToLower "FileInput" = "fileinput" ∨ goToLower "FileInput" = "multifileselector") →
      mapLookup (mountPathOf "/a/b.txt") ([] : List (String × String)) = none →
      processInputs [(⟨"FileInput", "/a/b.txt"⟩ : StepInput)] [] [] =
        processInputs [] [(mountPathOf "/a/b.txt", "/a/b.txt")]
          ([] ++ [{ irodsPath := "/a/b.txt"
                  , mappingPath := mountPathOf "/a/b.txt"
                  , resourceType := "file"
                  , readOnly := true
                  , createDir := false
                  , ignoreNotExistError := true }])) ∧
    (goToLower "FileInput" = "folderinput" →
      mapLookup (mountPathOf "/a/b.txt") ([] : List (String × String)) = none →
      processInputs [(⟨"FileInput", "/a/b.txt"⟩ : StepInput)] [] [] =
        processInputs [] [(mountPathOf "/a/b.txt", "/a/b.txt")]
          ([] ++ [{ irodsPath := "/a/b.txt"
                  , mappingPath := mountPathOf "/a/b.txt"
                  , resourceType := "dir"
                  , readOnly := true
                  , createDir := false
                  , ignoreNotExistError := true }])) ∧
    (goToLower "FileInput" ≠ "fileinput" → goToLower "FileInput" ≠ "multifileselector" →
      goToLower "FileInput" ≠ "folderinput" →
      processInputs [(⟨"FileInput", "/a/b.txt"⟩ : StepInput)] [] [] =
        .error (.unknownInputType "FileInput")) :=
  c7_input_type_mapping ⟨"FileInput", "/a/b.txt"⟩ [] [] [] (by decide)

/-! ## Claim C6 — identical basenames collide -/

/-- Some input in the list maps to a mount path already occupied in the
accumulated mapping map. -/
def hitsExisting (inputs : List StepInput) (mappingMap : List (String × String)) : Prop :=
  ∃ inp ∈ inputs, (mapLookup (mountPathOf inp.irodsPath) mappingMap).isSome = true

/-- Two distinct positions of the list carry inputs with the same mount
path. -/
def hasDupMount (inputs : List StepInput) : Prop :=
  ∃ l₁ x l₂ y l₃, inputs = l₁ ++ x :: (l₂ ++ y :: l₃) ∧
    mountPathOf x.irodsPath = mountPathOf y.irodsPath

theorem processInputs_collision (inputs : List StepInput) :
    ∀ (mappingMap : List (String × String)) (mappings : List IRODSFSPathMapping),
    (∀ inp ∈ inputs, (resourceTypeOf inp.ty).isSome = true ∧ inp.irodsPath ≠ "") →
    (hitsExisting inputs mappingMap ∨ hasDupMount inputs) →
    ∃ p m ex, processInputs inputs mappingMap mappings =
      .error (.inputPathCollision p m ex) := by
  induction inputs with
  | nil =>
    intro mappingMap mappings _ hcol
    rcases hcol with ⟨inp, hmem, _⟩ | ⟨l₁, x, l₂, y, l₃, heq, _⟩
    · exact absurd hmem (List.not_mem_nil inp)
    · have hlen := congrArg List.length heq
      simp [List.length_append] at hlen
      omega
  | cons inp rest ih =>
    intro mappingMap mappings hvalid hcol
    obtain ⟨hty, hne⟩ := hvalid inp (List.mem_cons_self inp rest)
    have hlen : 0 < inp.irodsPath.length := string_length_pos hne
    obtain ⟨rt, hrt⟩ := Option.isSome_iff_exists.mp hty
    cases hmp : mapLookup (mountPathOf inp.irodsPath) mappingMap with
    | some existing =>
      refine ⟨inp.irodsPath, mountPathOf inp.irodsPath, existing, ?_⟩
      simp [processInputs, if_pos hlen, hrt, hmp]
    | none =>
      have hstep : processInputs (inp :: rest) mappingMap mappings =
          processInputs rest ((mountPathOf inp.irodsPath, inp.irodsPath) :: mappingMap)
            (mappings ++ [{ irodsPath := inp.irodsPath
                          , mappingPath := mountPathOf inp.irodsPath
                          , resourceType := rt
                          , readOnly := true
                          , createDir := false
                          , ignoreNotExistError := true }]) := by
        simp [processInputs, if_pos hlen, hrt, hmp]
      rw [hstep]
      apply ih
      · intro x hx
        exact hvalid x (List.mem_cons_of_mem inp hx)
      · rcases hcol with ⟨z, hz, hsome⟩ | ⟨l₁, x, l₂, y, l₃, heq, hmpeq⟩
        · rcases List.mem_cons.mp hz with hz0 | hzr
          · subst hz0
            rw [hmp] at hsome
            exact absurd hsome (by simp)
          · exact Or.inl ⟨z, hzr, mapLookup_isSome_cons hsome⟩
        · cases l₁ with
          | nil =>
            simp only [List.nil_append] at heq
            have hx' : inp = x ∧ rest = l₂ ++ y :: l₃ := by
              constructor
              · exact (List.cons.inj heq).1
              · exact (List.cons.inj heq).2
            refine Or.inl ⟨y, ?_, ?_⟩
            · rw [hx'.2]
              exact List.mem_append_right l₂ (List.mem_cons_self y l₃)
            · have : mountPathOf y.irodsPath = mountPathOf inp.irodsPath := by
                rw [← hmpeq, hx'.1]
              rw [this]
              simp [mapLookup]
          | cons z l₁' =>
            have hz : inp = z ∧ rest = l₁' ++ x :: (l₂ ++ y :: l₃) := by
              constructor
              · exact (List.cons.inj heq).1
              · exact (List.cons.inj heq).2
            exact Or.inr ⟨l₁', x, l₂, y, l₃, hz.2, hmpeq⟩

/-- C6: a job all of whose inputs are walkable (non-empty path, valid type)
and which contains two inputs with identical basenames fails volume
synthesis with the input-path-collision error carrying the new iRODS path,
the contested mount path and the previously mapped iRODS path; no mapping
list is produced (`Except.error` carries no list). -/
theorem c6_basename_collision (job : Job) (l₁ l₂ l₃ : List StepInput) (x y : StepInput)
    (hsplit : jobInputs job = l₁ ++ x :: (l₂ ++ y :: l₃))
    (hvalid : ∀ inp ∈ jobInputs job, (resourceTypeOf inp.ty).isSome = true ∧ inp.irodsPath ≠ "")
    (hbase : goFilepathBase x.irodsPath = goFilepathBase y.irodsPath) :
    ∃ p m ex, getInputPathMappings job = .error (.inputPathCollision p m ex) := by
  have hmp : mountPathOf x.irodsPath = mountPathOf y.irodsPath := by
    unfold mountPathOf
    rw [hbase]
  have := processInputs_collision (jobInputs job) [] [] hvalid
    (Or.inr ⟨l₁, x, l₂, y, l₃, hsplit, hmp⟩)
  exact this

theorem c6_basename_collision_witness :
    ∃ p m ex,
      getInputPathMappings
        { invocationID := "job-0002", submitter := "alice", userID := "uid-1"
        , userHome := "", outputDirectory := "/zone1/home/alice/out"
        , steps := [ { component := { container := { uid := 1000, gid := 1000 } }
                     , config := { inputs := [ ⟨"fileinput", "/a/in.txt"⟩
                                             , ⟨"fileinput", "/b/in.txt"⟩ ] } } ] } =
        .error (.inputPathCollision p m ex) :=
  c6_basename_collision
    { invocationID := "job-0002", submitter := "alice", userID := "uid-1"
    , userHome := "", outputDirectory := "/zone1/home/alice/out"
    , steps := [ { component := { container := { uid := 1000, gid := 1000 } }
                 , config := { inputs := [ ⟨"fileinput", "/a/in.txt"⟩
                                         , ⟨"fileinput", "/b/in.txt"⟩ ] } } ] }
    [] [] [] ⟨"fileinput", "/a/in.txt"⟩ ⟨"fileinput", "/b/in.txt"⟩
    rfl (by decide) (by decide)

/-! ## Claim C1 — CSI volume attributes -/

def sampleIncluster : Incluster := { useCSIDriver := true, irodsZone := "zone1" }

def sampleCSIJob : Job :=
  { invocationID := "job-0001", submitter := "alice", userID := "uid-1"
  , userHome := "", outputDirectory := "/zone1/home/alice/out"
  , steps := [ { component := { container := { uid := 1000, gid := 2000 } }
               , config := { inputs := [] } } ] }

/-- C1 counterexample: the claim says the `gid` attribute is taken from the
GID of the first step's Component container.  For a job whose first container
has UID 1000 and GID 2000, the synthesized PersistentVolume carries
`gid = "1000"` (the source reuses `Container.UID` for the `gid` attribute at
volumes.go line 208), not `"2000"`. -/
theorem c1_gid_counterexample :
    (getPersistentVolumes sampleIncluster sampleCSIJob).map
      (fun pvs => pvs.map (fun pv => mapLookup "gid" pv.volumeAttributes)) =
      .ok [some "1000"] ∧
    sampleCSIJob.steps.map (fun s => s.component.container.gid) = [2000] ∧
    toString (2000 : Int) = "2000" ∧
    some ("1000" : String) ≠ some ("2000" : String) :=
  ⟨rfl, rfl, rfl, by decide⟩

/-- C1 amended: in CSI mode the PersistentVolume's volume attributes carry
`clientUser` equal to the Job's Submitter, `client=irodsfuse`,
`no_permission_check=true`, the JSON-encoded data path mapping list under
`path_mapping_json`, and `uid` and `gid` BOTH rendered from the UID of the
first step's Component container. -/
theorem c1_volume_attributes (i : Incluster) (job : Job) (s0 : JobStep)
    (rest : List JobStep) (inputMappings : List IRODSFSPathMapping)
    (hcsi : i.useCSIDriver = true) (hsteps : job.steps = s0 :: rest)
    (hins : getInputPathMappings job = .ok inputMappings) :
    ∃ pv, getPersistentVolumes i job = .ok [pv] ∧
      mapLookup "clientUser" pv.volumeAttributes = some job.submitter ∧
      mapLookup "client" pv.volumeAttributes = some "irodsfuse" ∧
      mapLookup "no_permission_check" pv.volumeAttributes = some "true" ∧
      mapLookup "path_mapping_json" pv.volumeAttributes =
        some (jsonEncodeMappings (dataPathMappings i job inputMappings)) ∧
      mapLookup "uid" pv.volumeAttributes = some (toString s0.component.container.uid) ∧
      mapLookup "gid" pv.volumeAttributes = some (toString s0.component.container.uid) := by
  unfold getPersistentVolumes
  rw [hcsi, if_pos rfl, hins, hsteps]
  refine ⟨_, rfl, ?_, ?_, ?_, ?_, ?_, ?_⟩ <;> rfl

theorem c1_volume_attributes_witness :
    ∃ pv, getPersistentVolumes sampleIncluster sampleCSIJob = .ok [pv] ∧
      mapLookup "clientUser" pv.volumeAttributes = some sampleCSIJob.submitter ∧
      mapLookup "client" pv.volumeAttributes = some "irodsfuse" ∧
      mapLookup "no_permission_check" pv.volumeAttributes = some "true" ∧
      mapLookup "path_mapping_json" pv.volumeAttributes =
        some (jsonEncodeMappings (dataPathMappings sampleIncluster sampleCSIJob [])) ∧
      mapLookup "uid" pv.volumeAttributes =
        some (toString (1000 : Int)) ∧
      mapLookup "gid" pv.volumeAttributes =
        some (toString (1000 : Int)) :=
  c1_volume_attributes sampleIncluster sampleCSIJob
    { component := { container := { uid := 1000, gid := 2000 } }
    , config := { inputs := [] } }
    [] [] rfl rfl rfl

/-! ## Claim C3 — handling of the `user` query parameter -/

/-- C3 counterexample: the claim says every filterable listing endpoint
strips `user` from the selector and re-injects `user-id`.  The per-kind
deployments endpoint does neither: with query `user=alice` its one cluster
call carries the selector containing `user=alice`, no `user-id`, and no Apps
lookup is performed. -/
theorem c3_user_not_stripped_counterexample :
    (FilterableDeploymentsHandler envEmpty [("user", ["alice"])]).1 =
      [ExtCall.clusterList "deployments"
        ⟨[("user", "alice"), ("app-type", "interactive")], []⟩] ∧
    mapLookup "user" (getListOptions (filterMap [("user", ["alice"])]) []).required =
      some "alice" ∧
    mapLookup "user-id" (getListOptions (filterMap [("user", ["alice"])]) []).required =
      none ∧
    ((FilterableDeploymentsHandler envEmpty [("user", ["alice"])]).1.all
      (fun c => match c with
        | .appsGetUserID _ => false
        | _ => true)) = true := by
  refine ⟨rfl, rfl, rfl, rfl⟩

/-- C3 amended: only the composite resources endpoint treats `user`
specially — it resolves the suffixed username via Apps, answers 404 when the
user is unknown (`sql.ErrNoRows`), strips `user` from the filter and injects
`user-id=<resolved>`; the per-kind filterable endpoints (deployments shown)
pass the raw query map, `user` included, into the label selector. -/
theorem c3_user_filter (env : Env) (query : List (String × List String)) (u : String)
    (hq : queryParamOf query "user" = u) (hne : u ≠ "") :
    (∀ uid, env.apps.getUserID (fixUsername env.userSuffix u) = .ok uid →
      FilterableResourcesHandler env query =
        ([ExtCall.appsGetUserID (fixUsername env.userSuffix u)] ++
          (doResourceListing env.cluster
            (mapSet "user-id" uid (mapDelete "user" (filterMap query)))).1,
         .okResources (doResourceListing env.cluster
            (mapSet "user-id" uid (mapDelete "user" (filterMap query)))).2)) ∧
    (env.apps.getUserID (fixUsername env.userSuffix u) = .error .noRows →
      FilterableResourcesHandler env query =
        ([ExtCall.appsGetUserID (fixUsername env.userSuffix u)],
         .httpError 404 ("user " ++ fixUsername env.userSuffix u ++ " not found"))) ∧
    (FilterableDeploymentsHandler env query =
      ([ExtCall.clusterList "deployments" (getListOptions (filterMap query) [])],
        .okList (listMatching env.cluster.deployments (filterMap query) []))) := by
  subst hq
  refine ⟨?_, ?_, rfl⟩
  · intro uid hok
    simp [FilterableResourcesHandler, hne, hok]
  · intro herr
    simp [FilterableResourcesHandler, hne, herr]

def appsBobOnly : Apps :=
  { getUserID := fun s => if s = "bob@iplant" then .ok "uid-b" else .error .noRows
  , getUserIP := fun _ => none
  , getAnalysisIDByExternalID := fun _ => none }

def envBob : Env :=
  { userSuffix := "@iplant"
  , apps := appsBobOnly
  , permIsAllowed := fun _ _ => .ok true
  , cluster := emptyCluster }

theorem c3_user_filter_witness :
    (∀ uid, envBob.apps.getUserID (fixUsername envBob.userSuffix "bob") = .ok uid →
      FilterableResourcesHandler envBob [("user", ["bob"])] =
        ([ExtCall.appsGetUserID (fixUsername envBob.userSuffix "bob")] ++
          (doResourceListing envBob.cluster
            (mapSet "user-id" uid (mapDelete "user" (filterMap [("user", ["bob"])])))).1,
         .okResources (doResourceListing envBob.cluster
            (mapSet "user-id" uid (mapDelete "user" (filterMap [("user", ["bob"])])))).2)) ∧
    (envBob.apps.getUserID (fixUsername envBob.userSuffix "bob") = .error .noRows →
      FilterableResourcesHandler envBob [("user", ["bob"])] =
        ([ExtCall.appsGetUserID (fixUsername envBob.userSuffix "bob")],
         .httpError 404 ("user " ++ fixUsername envBob.userSuffix "bob" ++ " not found"))) ∧
    (FilterableDeploymentsHandler envBob [("user", ["bob"])] =
      ([ExtCall.clusterList "deployments" (getListOptions (filterMap [("user", ["bob"])]) [])],
        .okList (listMatching envBob.cluster.deployments (filterMap [("user", ["bob"])]) []))) :=
  c3_user_filter envBob [("user", ["bob"])] "bob" rfl (by decide)

/-! ## Claim C4 — the permission gate -/

def envDeny : Env :=
  { userSuffix := "@iplant"
  , apps := { getUserID := fun _ => .ok "uid1"
            , getUserIP := fun _ => some "1.2.3.4"
            , getAnalysisIDByExternalID := fun _ => some "aid1" }
  , permIsAllowed := fun _ _ => .ok false
  , cluster := { deployments :=
                   [⟨"d1", [("app-type", "interactive"), ("user-id", "uid1")
                           , ("external-id", "e1")]⟩]
               , pods := [], configmaps := [], services := [], ingresses := [] } }

/-- C4 counterexample: the claim says every non-admin inspection endpoint
asks Permissions when the listing contains a deployment, responding 403 on
denial.  Against an environment whose Permissions oracle denies everything,
the composite resources endpoint returns the non-empty listing with status
200 and its trace contains no Permissions call. -/
theorem c4_no_gate_counterexample :
    (FilterableResourcesHandler envDeny [("user", ["alice"])]).2 =
      .okResources
        { deployments := [⟨"d1", [("app-type", "interactive"), ("user-id", "uid1")
                                 , ("external-id", "e1")]⟩]
        , pods := [], configmaps := [], services := [], ingresses := [] } ∧
    ((FilterableResourcesHandler envDeny [("user", ["alice"])]).1.all
      (fun c => !(isPermCall c))) = true ∧
    envDeny.permIsAllowed "alice" "aid1" = .ok false := by
  refine ⟨rfl, rfl, rfl⟩

/-- C4 amended: the permission gate (resolve the first deployment's
external-id to an analysis-id, ask Permissions, 403 on denial, bypassed for
empty listings) is implemented on the description endpoint only; the
composite resources endpoint performs no Permissions call at all (it
restricts results by the resolved `user-id` filter instead). -/
theorem c4_permission_gate (env : Env) (host : String)
    (query : List (String × List String)) (user : String)
    (hq : queryParamOf query "user" = user) (hu : user ≠ "")
    (uid : String)
    (hok : env.apps.getUserID (fixUsername env.userSuffix user) = .ok uid) :
    ((doResourceListing env.cluster [("subdomain", host)]).2.deployments = [] →
      DescribeAnalysisHandler env host query =
        ([ExtCall.appsGetUserID (fixUsername env.userSuffix user)] ++
          (doResourceListing env.cluster [("subdomain", host)]).1,
         .okResources (doResourceListing env.cluster [("subdomain", host)]).2)) ∧
    (∀ d ds aid,
      (doResourceListing env.cluster [("subdomain", host)]).2.deployments = d :: ds →
      env.apps.getAnalysisIDByExternalID (externalIDOf d) = some aid →
      env.permIsAllowed user aid = .ok false →
      (DescribeAnalysisHandler env host query).2 =
        .httpError 403 ("user " ++ user ++ " cannot access analysis " ++ aid)) ∧
    (∀ d ds aid,
      (doResourceListing env.cluster [("subdomain", host)]).2.deployments = d :: ds →
      env.apps.getAnalysisIDByExternalID (externalIDOf d) = some aid →
      env.permIsAllowed user aid = .ok true →
      (DescribeAnalysisHandler env host query).2 =
        .okResources (doResourceListing env.cluster [("subdomain", host)]).2) ∧
    (∀ query' : List (String × List String),
      ((FilterableResourcesHandler env query').1.all (fun c => !(isPermCall c))) = true) := by
  subst hq
  refine ⟨?_, ?_, ?_, ?_⟩
  · intro hempty
    simp [DescribeAnalysisHandler, hu, hok, hempty]
  · intro d ds aid hdep haid hdeny
    simp [DescribeAnalysisHandler, hu, hok, hdep, haid, hdeny]
  · intro d ds aid hdep haid hallow
    simp [DescribeAnalysisHandler, hu, hok, hdep, haid, hallow]
  · intro query'
    unfold FilterableResourcesHandler
    by_cases hq' : queryParamOf query' "user" = ""
    · simp [hq']
    · simp only [if_neg hq']
      cases hres : env.apps.getUserID (fixUsername env.userSuffix (queryParamOf query' "user")) with
      | error e => cases e <;> simp [isPermCall]
      | ok uid' => simp [doResourceListing, isPermCall]

theorem c4_permission_gate_witness :
    ((doResourceListing envDeny.cluster [("subdomain", "host-1")]).2.deployments = [] →
      DescribeAnalysisHandler envDeny "host-1" [("user", ["alice"])] =
        ([ExtCall.appsGetUserID (fixUsername envDeny.userSuffix "alice")] ++
          (doResourceListing envDeny.cluster [("subdomain", "host-1")]).1,
         .okResources (doResourceListing envDeny.cluster [("subdomain", "host-1")]).2)) ∧
    (∀ d ds aid,
      (doResourceListing envDeny.cluster [("subdomain", "host-1")]).2.deployments = d :: ds →
      envDeny.apps.getAnalysisIDByExternalID (externalIDOf d) = some aid →
      envDeny.permIsAllowed "alice" aid = .ok false →
      (DescribeAnalysisHandler envDeny "host-1" [("user", ["alice"])]).2 =
        .httpError 403 ("user " ++ "alice" ++ " cannot access analysis " ++ aid)) ∧
    (∀ d ds aid,
      (doResourceListing envDeny.cluster [("subdomain", "host-1")]).2.deployments = d :: ds →
      envDeny.apps.getAnalysisIDByExternalID (externalIDOf d) = some aid →
      envDeny.permIsAllowed "alice" aid = .ok true →
      (DescribeAnalysisHandler envDeny "host-1" [("user", ["alice"])]).2 =
        .okResources (doResourceListing envDeny.cluster [("subdomain", "host-1")]).2) ∧
    (∀ query' : List (String × List String),
      ((FilterableResourcesHandler envDeny query').1.all (fun c => !(isPermCall c))) = true) :=
  c4_permission_gate envDeny "host-1" [("user", ["alice"])] "alice" rfl (by decide) "uid1" rfl

/-! ## Claim C5 — the reconciler sweep -/

theorem populateSubdomain_lookup_other (f : String → String → String) (ls : Labels)
    (k : String) (hk : k ≠ "subdomain") :
    mapLookup k (populateSubdomain f ls) = mapLookup k ls := by
  unfold populateSubdomain
  split
  · rfl
  · split
    · exact mapLookup_mapSet_ne hk _ _
    · rfl

theorem populateLoginIP_lookup_other (apps : Apps) (ls : Labels) (k : String)
    (hk : k ≠ "login-ip") :
    mapLookup k (populateLoginIP apps ls).1 = mapLookup k ls := by
  unfold populateLoginIP
  split
  · rfl
  · split
    · rfl
    · split
      · rfl
      · exact mapLookup_mapSet_ne hk _ _

theorem populateAnalysisID_lookup_other (apps : Apps) (ls : Labels) (k : String)
    (hk : k ≠ "analysis-id") :
    mapLookup k (populateAnalysisID apps ls).1 = mapLookup k ls := by
  unfold populateAnalysisID
  split
  · rfl
  · split
    · rfl
    · split
      · rfl
      · exact mapLookup_mapSet_ne hk _ _

theorem populateSubdomain_sets (f : String → String → String) (ls : Labels)
    (e u : String) (hsub : mapLookup "subdomain" ls = none)
    (he : mapLookup "external-id" ls = some e) (hu : mapLookup "user-id" ls = some u) :
    populateSubdomain f ls = mapSet "subdomain" (f u e) ls := by
  simp [populateSubdomain, hsub, he, hu]

theorem populateLoginIP_sets (apps : Apps) (ls : Labels) (u ip : String)
    (hip : mapLookup "login-ip" ls = none) (hu : mapLookup "user-id" ls = some u)
    (hgot : apps.getUserIP u = some ip) :
    (populateLoginIP apps ls).1 = mapSet "login-ip" ip ls := by
  simp [populateLoginIP, hip, hu, hgot]

theorem populateAnalysisID_sets (apps : Apps) (ls : Labels) (e aid : String)
    (ha : mapLookup "analysis-id" ls = none)
    (he : mapLookup "external-id" ls = some e)
    (hgot : apps.getAnalysisIDByExternalID e = some aid) :
    (populateAnalysisID apps ls).1 = mapSet "analysis-id" aid ls := by
  simp [populateAnalysisID, ha, he, hgot]

theorem matchesSweepOptions_iff (ls : Labels) :
    matchesOptions (getListOptions [] ["subdomain"]) ls = true ↔
      (mapLookup "app-type" ls = some "interactive" ∧
       mapLookup "subdomain" ls = none) := by
  simp [matchesOptions, getListOptions, getListSelector, Option.isNone_iff_eq_none]

def appsConst : Apps :=
  { getUserID := fun _ => .ok "u"
  , getUserIP := fun _ => some "10.0.0.1"
  , getAnalysisIDByExternalID := fun _ => some "aid" }

/-- C5 counterexample: the claim says the sweep visits every object bearing
`app-type=interactive` that is missing any of the derived labels.  This
object carries `subdomain` but is missing both `login-ip` and `analysis-id`,
yet the sweep (which lists only objects missing `subdomain`) issues no
update for it. -/
theorem c5_not_visited_counterexample :
    relabelDeployments appsConst
      [⟨"d1", [("app-type", "interactive"), ("subdomain", "sub1")
              , ("external-id", "e1"), ("user-id", "u1")]⟩] = [] ∧
    mapLookup "app-type"
      [("app-type", "interactive"), ("subdomain", "sub1")
      , ("external-id", "e1"), ("user-id", "u1")] = some "interactive" ∧
    mapLookup "login-ip"
      [("app-type", "interactive"), ("subdomain", "sub1")
      , ("external-id", "e1"), ("user-id", "u1")] = none ∧
    mapLookup "analysis-id"
      [("app-type", "interactive"), ("subdomain", "sub1")
      , ("external-id", "e1"), ("user-id", "u1")] = none := by
  refine ⟨rfl, rfl, rfl, rfl⟩

/-- C5 amended: the sweep visits exactly the objects bearing
`app-type=interactive` that lack the `subdomain` label (objects missing only
`login-ip` or `analysis-id` are not visited), and for each visited object it
sets `subdomain = IngressName(user-id, external-id)` when `external-id` and
`user-id` are present, `login-ip` from Apps' GetUserIP when `user-id` is
present and the call succeeds, and `analysis-id` from Apps'
GetAnalysisIDByExternalID when `external-id` is present and the call
succeeds. -/
theorem c5_sweep_behaviour (apps : Apps) (cluster : List K8sObject) (d : K8sObject)
    (hd : d ∈ cluster) :
    (relabelDeployments apps cluster =
      (deploymentListModel cluster [] ["subdomain"]).map
        (fun o => { o with labels := sweepLabels apps o.labels })) ∧
    (d ∈ deploymentListModel cluster [] ["subdomain"] ↔
      (mapLookup "app-type" d.labels = some "interactive" ∧
       mapLookup "subdomain" d.labels = none)) ∧
    (∀ e u, mapLookup "subdomain" d.labels = none →
      mapLookup "external-id" d.labels = some e →
      mapLookup "user-id" d.labels = some u →
      mapLookup "subdomain" (sweepLabels apps d.labels) = some (IngressName u e)) ∧
    (∀ u ip, mapLookup "login-ip" d.labels = none →
      mapLookup "user-id" d.labels = some u →
      apps.getUserIP u = some ip →
      mapLookup "login-ip" (sweepLabels apps d.labels) = some ip) ∧
    (∀ e aid, mapLookup "analysis-id" d.labels = none →
      mapLookup "external-id" d.labels = some e →
      apps.getAnalysisIDByExternalID e = some aid →
      mapLookup "analysis-id" (sweepLabels apps d.labels) = some aid) := by
  refine ⟨rfl, ?_, ?_, ?_, ?_⟩
  · unfold deploymentListModel
    rw [List.mem_filter]
    constructor
    · intro h
      exact (matchesSweepOptions_iff d.labels).mp h.2
    · intro h
      exact ⟨hd, (matchesSweepOptions_iff d.labels).mpr h⟩
  · intro e u hsub he hu
    unfold sweepLabels
    rw [populateAnalysisID_lookup_other apps _ _ (by decide),
      populateLoginIP_lookup_other apps _ _ (by decide),
      populateSubdomain_sets IngressName d.labels e u hsub he hu,
      mapLookup_mapSet_self]
  · intro u ip hip hu hgot
    have h1 : mapLookup "login-ip" (populateSubdomain IngressName d.labels) = none := by
      rw [populateSubdomain_lookup_other IngressName d.labels _ (by decide)]
      exact hip
    have h2 : mapLookup "user-id" (populateSubdomain IngressName d.labels) = some u := by
      rw [populateSubdomain_lookup_other IngressName d.labels _ (by decide)]
      exact hu
    unfold sweepLabels
    rw [populateLoginIP_sets apps _ u ip h1 h2 hgot,
      populateAnalysisID_lookup_other apps _ _ (by decide),
      mapLookup_mapSet_self]
  · intro e aid ha he hgot
    have h1 : mapLookup "analysis-id"
        (populateLoginIP apps (populateSubdomain IngressName d.labels)).1 = none := by
      rw [populateLoginIP_lookup_other apps _ _ (by decide),
        populateSubdomain_lookup_other IngressName d.labels _ (by decide)]
      exact ha
    have h2 : mapLookup "external-id"
        (populateLoginIP apps (populateSubdomain IngressName d.labels)).1 = some e := by
      rw [populateLoginIP_lookup_other apps _ _ (by decide),
        populateSubdomain_lookup_other IngressName d.labels _ (by decide)]
      exact he
    unfold sweepLabels
    rw [populateAnalysisID_sets apps _ e aid h1 h2 hgot, mapLookup_mapSet_self]

theorem c5_sweep_behaviour_witness :
    (relabelDeployments appsConst
        [⟨"d2", [("app-type", "interactive"), ("external-id", "e1"), ("user-id", "u1")]⟩] =
      (deploymentListModel
          [⟨"d2", [("app-type", "interactive"), ("external-id", "e1"), ("user-id", "u1")]⟩]
          [] ["subdomain"]).map
        (fun o => { o with labels := sweepLabels appsConst o.labels })) ∧
    ((⟨"d2", [("app-type", "interactive"), ("external-id", "e1"), ("user-id", "u1")]⟩ : K8sObject) ∈
        deploymentListModel
          [⟨"d2", [("app-type", "interactive"), ("external-id", "e1"), ("user-id", "u1")]⟩]
          [] ["subdomain"] ↔
      (mapLookup "app-type"
          [("app-type", "interactive"), ("external-id", "e1"), ("user-id", "u1")] =
          some "interactive" ∧
       mapLookup "subdomain"
          [("app-type", "interactive"), ("external-id", "e1"), ("user-id", "u1")] = none)) ∧
    (∀ e u, mapLookup "subdomain"
          [("app-type", "interactive"), ("external-id", "e1"), ("user-id", "u1")] = none →
      mapLookup "external-id"
          [("app-type", "interactive"), ("external-id", "e1"), ("user-id", "u1")] = some e →
      mapLookup "user-id"
          [("app-type", "interactive"), ("external-id", "e1"), ("user-id", "u1")] = some u →
      mapLookup "subdomain"
          (sweepLabels appsConst
            [("app-type", "interactive"), ("external-id", "e1"), ("user-id", "u1")]) =
        some (IngressName u e)) ∧
    (∀ u ip, mapLookup "login-ip"
          [("app-type", "interactive"), ("external-id", "e1"), ("user-id", "u1")] = none →
      mapLookup "user-id"
          [("app-type", "interactive"), ("external-id", "e1"), ("user-id", "u1")] = some u →
      appsConst.getUserIP u = some ip →
      mapLookup "login-ip"
          (sweepLabels appsConst
            [("app-type", "interactive"), ("external-id", "e1"), ("user-id", "u1")]) =
        some ip) ∧
    (∀ e aid, mapLookup "analysis-id"
          [("app-type", "interactive"), ("external-id", "e1"), ("user-id", "u1")] = none →
      mapLookup "external-id"
          [("app-type", "interactive"), ("external-id", "e1"), ("user-id", "u1")] = some e →
      appsConst.getAnalysisIDByExternalID e = some aid →
      mapLookup "analysis-id"
          (sweepLabels appsConst
            [("app-type", "interactive"), ("external-id", "e1"), ("user-id", "u1")]) =
        some aid) :=
  c5_sweep_behaviour appsConst
    [⟨"d2", [("app-type", "interactive"), ("external-id", "e1"), ("user-id", "u1")]⟩]
    ⟨"d2", [("app-type", "interactive"), ("external-id", "e1"), ("user-id", "u1")]⟩
    (List.mem_singleton_self _)

end AppExposer
